import Mathlib

set_option autoImplicit false

/-
Shallow embedding of the credential/config core of the oauthapp secrets
engine. Go maps of strings are modelled as association lists (with the
iteration order of a Go map fixed to list order); wall-clock instants are
integer seconds; float64 tuning factors are rationals (only order
comparisons with 1 occur). Fallible Go calls return Except or Option, and
the Vault (response, error) pair is an explicit result type.
-/

namespace OAuthApp

/-- Association lists standing in for Go map[string]string values. -/
abbrev Params := List (String × String)

/-- Go map lookup m[k] over an association list. -/
def lookupKey {α : Type} : List (String × α) → String → Option α
  | [], _ => none
  | (k, v) :: rest, key => if k = key then some v else lookupKey rest key

/-- Go delete(m, k): removes the entry for k (the first, which is the only
one when keys are nodup). -/
def eraseKey {α : Type} : List (String × α) → String → List (String × α)
  | [], _ => []
  | (k, v) :: rest, key => if k = key then rest else (k, v) :: eraseKey rest key

/-- A Go map never holds a key twice; association lists representing maps
satisfy this well-formedness predicate. -/
def keysNodup {α : Type} (l : List (String × α)) : Prop :=
  (l.map Prod.fst).Nodup

/-- Wall-clock instants in seconds; 0 models Go's zero time (unset). -/
abbrev Instant := Int

/-- The oauth2 token record carried through exchange and refresh. -/
structure Token where
  accessToken : String
  tokenType : String
  refreshToken : String
  expiry : Instant
  deriving Repr, DecidableEq

/-- The oauth2 library treats a token as expiring this many seconds early. -/
def expiryDelta : Int := 10

/-- Token.expired of the oauth2 library: false when expiry is unset,
otherwise compares expiry minus the delta against the current time. -/
def Token.expired (t : Token) (now : Instant) : Bool :=
  if t.expiry = 0 then false else decide (t.expiry - expiryDelta < now)

/-- Token.Valid of the oauth2 library: nonempty access token and not
expired. -/
def Token.valid (t : Token) (now : Instant) : Bool :=
  (t.accessToken != "") && !(t.expired now)

/-- Lowercase an ASCII character, for case-insensitive comparisons. -/
def lowerChar (c : Char) : Char :=
  if 65 ≤ c.toNat ∧ c.toNat ≤ 90 then Char.ofNat (c.toNat + 32) else c

/-- Lowercase a string character by character. -/
def lowerStr (s : String) : String := ⟨s.data.map lowerChar⟩

/-- Token.Type of the oauth2 library: canonicalizes well-known token types
case-insensitively, defaulting to Bearer. -/
def Token.type (t : Token) : String :=
  if lowerStr t.tokenType = "bearer" then "Bearer"
  else if lowerStr t.tokenType = "mac" then "MAC"
  else if lowerStr t.tokenType = "basic" then "Basic"
  else if t.tokenType != "" then t.tokenType
  else "Bearer"

/-- An oauth2 endpoint pair (authorization URL, token URL). -/
structure Endpoint where
  authURL : String
  tokenURL : String
  deriving Repr, DecidableEq

/-- The endpoint the mock provider hands to its auth-code URL builder. -/
def MockEndpoint : Endpoint :=
  { authURL := "http://localhost/authorize", tokenURL := "http://localhost/token" }

/-- A provider instance as the config operations observe it: the version it
reports and the endpoint its conforming auth-code URL builder closes over. -/
structure Provider where
  version : Int
  endpoint : Endpoint
  deriving Repr, DecidableEq

/-- OptionError reported by a factory for a single offending option key. -/
structure OptionError where
  option : String
  message : String
  deriving Repr, DecidableEq

/-- Errors a provider factory may return. -/
inductive FactoryError where
  | noProviderWithVersion
  | optionError (e : OptionError)
  deriving Repr, DecidableEq

/-- The sentinel version meaning latest when building a provider. -/
def ProviderVersionLatest : Int := -1

/-- The mock provider owner: its reported version and the options its
factory insists on, in a fixed iteration order. -/
structure Mock where
  vsn : Int
  expectedOpts : Params
  deriving Repr

/-- The validation loop of mock.factory over the declared options: each
declared key must be present with the expected value and is then deleted
from the caller's options map (the Go code mutates the map in place, so the
resulting map is returned alongside any error). -/
def checkExpectedOpts : Params → Params → Option OptionError × Params
  | [], options => (none, options)
  | (k, ev) :: rest, options =>
    match lookupKey options k with
    | none => (some { option := k, message := "not found" }, options)
    | some av =>
      if av = ev then checkExpectedOpts rest (eraseKey options k)
      else (some { option := k, message := "expected " ++ ev ++ ", got " ++ av }, options)

/-- mock.factory: accepts the latest sentinel or its own version, then
validates the options map, deleting declared keys as it goes and rejecting
any leftover key; returns the result together with the final state of the
caller's options map. -/
def Mock.factory (m : Mock) (vsn : Int) (options : Params) :
    Except FactoryError Provider × Params :=
  if vsn = ProviderVersionLatest ∨ vsn = m.vsn then
    match checkExpectedOpts m.expectedOpts options with
    | (some e, options') => (.error (.optionError e), options')
    | (none, options') =>
      match options' with
      | [] => (.ok { version := m.vsn, endpoint := MockEndpoint }, options')
      | (k, _) :: _ =>
        (.error (.optionError { option := k, message := "unexpected" }), options')
  else (.error .noProviderWithVersion, options)

/-- The code's criterion for an options map passing validation: the check
loop reports no error and consumes the whole map. -/
def optionsValid (expected opts : Params) : Bool :=
  match checkExpectedOpts expected opts with
  | (none, []) => true
  | _ => false

/-- Two association lists denote the same Go map. -/
def optionsMatch (expected opts : Params) : Prop :=
  ∀ k, lookupKey opts k = lookupKey expected k

/-- The key named by an OptionError is genuinely offending: either declared
with a different (or missing) value in the given options, or present in the
options without being declared. -/
def offendingKey (expected opts : Params) (k : String) : Prop :=
  ((lookupKey expected k).isSome = true ∧ lookupKey opts k ≠ lookupKey expected k) ∨
    (lookupKey expected k = none ∧ (lookupKey opts k).isSome = true)

/-- A provider factory: version and options in, provider out, together with
the final state of the caller's options map. -/
abbrev FactoryFunc := Int → Params → Except FactoryError Provider × Params

/-- Modelled from the spec: the provider registry (its code is not under
src; only its callers are). It maps names to factories; build looks the
name up and delegates to the factory at the requested version. -/
structure Registry where
  factories : List (String × FactoryFunc)

/-- Errors of a registry build, surfaced to the caller as user errors
(modelled from the spec: bad input and bad option are user errors,
reported as visible responses). -/
inductive RegistryError where
  | noSuchProvider
  | factoryErr (e : FactoryError)
  deriving Repr, DecidableEq

/-- Modelled from the spec: build(name, version, options) of the registry
returns a provider, NoSuchProvider, or the factory's error. -/
def Registry.new (r : Registry) (name : String) (vsn : Int) (options : Params) :
    Except RegistryError Provider :=
  match lookupKey r.factories name with
  | none => .error .noSuchProvider
  | some f =>
    match f vsn options with
    | (.error e, _) => .error (.factoryErr e)
    | (.ok p, _) => .ok p

/-- Modelled from the spec: the basic provider factory (the provider
package is not under src). It is pure, takes no declared options, rejects
unknown keys, and accepts the latest sentinel and its own version 1. -/
def basicFactory (endpoint : Endpoint) : FactoryFunc := fun vsn options =>
  if vsn = ProviderVersionLatest ∨ vsn = 1 then
    match options with
    | [] => (.ok { version := 1, endpoint := endpoint }, options)
    | (k, _) :: _ =>
      (.error (.optionError { option := k, message := "unexpected" }), options)
  else (.error .noProviderWithVersion, options)

/-- The nested tuning record of the ConfigEntry. Factors are float64 in the
source; only order comparisons with 1 occur, so rationals model them. -/
structure ConfigTuningEntry where
  providerTimeoutSeconds : Int
  providerTimeoutExpiryLeewayFactor : Rat
  refreshCheckIntervalSeconds : Int
  refreshExpiryDeltaFactor : Rat
  reapCheckIntervalSeconds : Int
  reapDryRun : Bool
  reapNonRefreshableSeconds : Int
  reapRevokedSeconds : Int
  reapTransientErrorAttempts : Int
  reapTransientErrorSeconds : Int
  deriving Repr, DecidableEq

/-- Modelled from the spec: the latest on-disk config schema generation
(persistence package is not under src); decoders re-encode at this value on
the next write. The particular numeral is immaterial to the claims. -/
def ConfigVersionLatest : Int := 2

/-- The singleton persisted configuration entry. -/
structure ConfigEntry where
  version : Int
  clientID : String
  clientSecret : String
  authURLParams : Params
  providerName : String
  providerVersion : Int
  providerOptions : Params
  tuning : ConfigTuningEntry
  deriving Repr, DecidableEq

/-- A persisted credential entry (only the parts the config-path claims
touch: the frame conditions never inspect the fields). -/
structure CredentialEntry where
  token : Token
  deriving Repr, DecidableEq

/-- The Store as the config operations see it: the singleton config entry,
the credential entries keyed by name, and flags injecting the storage
failures the source propagates as internal errors. -/
structure Storage where
  config : Option ConfigEntry
  creds : String → Option CredentialEntry
  configWriteFails : Bool
  configDeleteFails : Bool

/-- Observable side effects of a config operation, in order. -/
inductive Event where
  | storeWrite
  | storeDelete
  | reset
  deriving Repr, DecidableEq

/-- Values appearing in a response data map. -/
inductive Value where
  | str (s : String)
  | int (i : Int)
  | rat (q : Rat)
  | bool (b : Bool)
  | kv (m : Params)
  | url (base : String) (query : Params)
  deriving Repr, DecidableEq

/-- The (response, error) pair a Vault operation returns: a nil response
with an internal error, a visible error response, or a success carrying
optional response data. -/
inductive OpResult where
  | internalErr (msg : String)
  | errResp (msg : String)
  | ok (data : Option (List (String × Value)))
  deriving Repr, DecidableEq

/-- The field data of a config update request after schema resolution:
GetOk fields are optional, Get fields carry their resolved (possibly
default) values, exactly as the handler reads them. -/
structure FieldData where
  clientID : Option String
  provider : Option String
  clientSecret : String
  authURLParams : Params
  providerOptions : Params
  tuneProviderTimeoutSeconds : Int
  tuneProviderTimeoutExpiryLeewayFactor : Rat
  tuneRefreshCheckIntervalSeconds : Int
  tuneRefreshExpiryDeltaFactor : Rat
  tuneReapCheckIntervalSeconds : Int
  tuneReapDryRun : Bool
  tuneReapNonRefreshableSeconds : Int
  tuneReapRevokedSeconds : Int
  tuneReapTransientErrorAttempts : Int
  tuneReapTransientErrorSeconds : Int

/-- The tuning entry the update handler assembles from the request data. -/
def tuningOfData (d : FieldData) : ConfigTuningEntry :=
  { providerTimeoutSeconds := d.tuneProviderTimeoutSeconds
    providerTimeoutExpiryLeewayFactor := d.tuneProviderTimeoutExpiryLeewayFactor
    refreshCheckIntervalSeconds := d.tuneRefreshCheckIntervalSeconds
    refreshExpiryDeltaFactor := d.tuneRefreshExpiryDeltaFactor
    reapCheckIntervalSeconds := d.tuneReapCheckIntervalSeconds
    reapDryRun := d.tuneReapDryRun
    reapNonRefreshableSeconds := d.tuneReapNonRefreshableSeconds
    reapRevokedSeconds := d.tuneReapRevokedSeconds
    reapTransientErrorAttempts := d.tuneReapTransientErrorAttempts
    reapTransientErrorSeconds := d.tuneReapTransientErrorSeconds }

/-- Ninety days in seconds, the bound on the refresh check interval. -/
def refreshCheckIntervalMax : Int := 90 * 24 * 60 * 60

/-- One hundred eighty days in seconds, the bound on the reap check
interval. -/
def reapCheckIntervalMax : Int := 180 * 24 * 60 * 60

/-- The sanity-check switch of configUpdateOperation over the tuning
options, in source order; returns the error message of the first violated
bound. -/
def validateTuning (t : ConfigTuningEntry) : Option String :=
  if t.providerTimeoutExpiryLeewayFactor < 1 then
    some "provider timeout expiry leeway factor must be at least 1.0"
  else if refreshCheckIntervalMax < t.refreshCheckIntervalSeconds then
    some "refresh check interval can be at most 90 days"
  else if t.refreshExpiryDeltaFactor < 1 then
    some "refresh expiry delta factor must be at least 1.0"
  else if reapCheckIntervalMax < t.reapCheckIntervalSeconds then
    some "reap check interval can be at most 180 days"
  else if t.reapTransientErrorAttempts < 0 then
    some "reap transient error attempts cannot be negative"
  else none

/-- The five tuning bounds of the spec, as the source checks them. -/
def tuningBoundsOK (t : ConfigTuningEntry) : Prop :=
  ¬ t.providerTimeoutExpiryLeewayFactor < 1 ∧
    ¬ refreshCheckIntervalMax < t.refreshCheckIntervalSeconds ∧
    ¬ t.refreshExpiryDeltaFactor < 1 ∧
    ¬ reapCheckIntervalMax < t.reapCheckIntervalSeconds ∧
    ¬ t.reapTransientErrorAttempts < 0

instance (t : ConfigTuningEntry) : Decidable (tuningBoundsOK t) := by
  unfold tuningBoundsOK; infer_instance

/-- Message the factory errors surface with when marked as user errors
(modelled from the spec: bad options are reported as visible responses). -/
def factoryErrorMessage : FactoryError → String
  | .noProviderWithVersion => "version does not exist for this provider"
  | .optionError e => "invalid option " ++ e.option ++ ": " ++ e.message

/-- The ConfigEntry the update handler assembles before the tuning checks:
version pinned at latest, provider version taken from the freshly built
provider. -/
def configEntryOfData (d : FieldData) (clientID providerName : String)
    (p : Provider) : ConfigEntry :=
  { version := ConfigVersionLatest
    clientID := clientID
    clientSecret := d.clientSecret
    authURLParams := d.authURLParams
    providerName := providerName
    providerVersion := p.version
    providerOptions := d.providerOptions
    tuning := tuningOfData d }

/-- configUpdateOperation: requires client_id and provider, builds a
provider at the latest version from the requested name and options, checks
the tuning bounds of the assembled entry in source order, writes the entry
and then resets the backend. Returns the result, the resulting storage,
and the trace of store writes and resets. -/
def configUpdateOperation (reg : Registry) (st : Storage) (d : FieldData) :
    OpResult × Storage × List Event :=
  match d.clientID with
  | none => (.errResp "missing client ID", st, [])
  | some clientID =>
    match d.provider with
    | none => (.errResp "missing provider", st, [])
    | some providerName =>
      match Registry.new reg providerName ProviderVersionLatest d.providerOptions with
      | .error .noSuchProvider =>
        (.errResp ("provider " ++ providerName ++ " does not exist"), st, [])
      | .error (.factoryErr e) => (.errResp (factoryErrorMessage e), st, [])
      | .ok p =>
        match validateTuning (tuningOfData d) with
        | some msg => (.errResp msg, st, [])
        | none =>
          if st.configWriteFails then (.internalErr "configuration write failed", st, [])
          else
            (.ok none,
             { st with config := some (configEntryOfData d clientID providerName p) },
             [.storeWrite, .reset])

/-- configDeleteOperation: deletes the singleton config entry and resets
the backend; a storage failure is returned as an internal error with no
reset. -/
def configDeleteOperation (st : Storage) : OpResult × Storage × List Event :=
  if st.configDeleteFails then (.internalErr "configuration delete failed", st, [])
  else (.ok none, { st with config := none }, [.storeDelete, .reset])

/-- The cache bundle: the current config together with the provider built
at the pinned provider version (the backend cache code is not under src;
modelled from the spec). -/
structure CacheBundle where
  config : ConfigEntry
  provider : Provider
  deriving Repr, DecidableEq

/-- Modelled from the spec: getCache returns nothing when unconfigured,
and otherwise the bundle of the stored config with a provider rebuilt at
the pinned provider version; a registry mismatch is a fatal error. -/
def getCache (reg : Registry) (st : Storage) : Except String (Option CacheBundle) :=
  match st.config with
  | none => .ok none
  | some c =>
    match Registry.new reg c.providerName c.providerVersion c.providerOptions with
    | .error _ => .error "provider version unavailable"
    | .ok p => .ok (some { config := c, provider := p })

/-- The response data configReadOperation assembles from the cached config:
every field except the client secret. -/
def configReadResponseData (c : ConfigEntry) : List (String × Value) :=
  [("client_id", .str c.clientID),
   ("auth_url_params", .kv c.authURLParams),
   ("provider", .str c.providerName),
   ("provider_version", .int c.providerVersion),
   ("provider_options", .kv c.providerOptions),
   ("tune_provider_timeout_seconds", .int c.tuning.providerTimeoutSeconds),
   ("tune_provider_timeout_expiry_leeway_factor", .rat c.tuning.providerTimeoutExpiryLeewayFactor),
   ("tune_refresh_check_interval_seconds", .int c.tuning.refreshCheckIntervalSeconds),
   ("tune_refresh_expiry_delta_factor", .rat c.tuning.refreshExpiryDeltaFactor),
   ("tune_reap_check_interval_seconds", .int c.tuning.reapCheckIntervalSeconds),
   ("tune_reap_dry_run", .bool c.tuning.reapDryRun),
   ("tune_reap_non_refreshable_seconds", .int c.tuning.reapNonRefreshableSeconds),
   ("tune_reap_revoked_seconds", .int c.tuning.reapRevokedSeconds),
   ("tune_reap_transient_error_attempts", .int c.tuning.reapTransientErrorAttempts),
   ("tune_reap_transient_error_seconds", .int c.tuning.reapTransientErrorSeconds)]

/-- The keys of the config read response, in source order. -/
def configReadKeys : List String :=
  (configReadResponseData
    { version := 0, clientID := "", clientSecret := "", authURLParams := []
      providerName := "", providerVersion := 0, providerOptions := []
      tuning :=
        { providerTimeoutSeconds := 0, providerTimeoutExpiryLeewayFactor := 1
          refreshCheckIntervalSeconds := 0, refreshExpiryDeltaFactor := 1
          reapCheckIntervalSeconds := 0, reapDryRun := false
          reapNonRefreshableSeconds := 0, reapRevokedSeconds := 0
          reapTransientErrorAttempts := 0, reapTransientErrorSeconds := 0 } }).map Prod.fst

/-- configReadOperation: nothing when unconfigured, otherwise the response
data assembled from the cached config. -/
def configReadOperation (reg : Registry) (st : Storage) : OpResult :=
  match getCache reg st with
  | .error e => .internalErr e
  | .ok none => .ok none
  | .ok (some cache) => .ok (some (configReadResponseData cache.config))

/-- Set semantics of url.Values.Set: replace the value of an existing key,
otherwise append the pair. -/
def setParam (q : Params) (k v : String) : Params :=
  if (lookupKey q k).isSome then
    q.map (fun p => if p.fst = k then (k, v) else p)
  else q ++ [(k, v)]

/-- Apply a list of URL parameters in order, each with Set semantics. -/
def setParams (q : Params) (ps : Params) : Params :=
  ps.foldl (fun acc kv => setParam acc kv.fst kv.snd) q

/-- Modelled from the spec: the query of the authorization code URL built
by the conforming builder over the oauth2 AuthCodeURL (the provider
package is not under src). It always carries response_type=code and the
client id; redirect URL, joined scopes, the URL parameters in application
order, and the state follow when nonempty. -/
def authCodeURLQuery (clientID redirectURL : String) (scopes : List String)
    (urlParams : Params) (state : String) : Params :=
  let q : Params := [("response_type", "code"), ("client_id", clientID)]
  let q := if redirectURL = "" then q else setParam q "redirect_uri" redirectURL
  let q := if scopes.isEmpty then q else setParam q "scope" (String.intercalate " " scopes)
  let q := setParams q urlParams
  if state = "" then q else setParam q "state" state

/-- The field data of a config/auth_code_url update request. -/
structure AuthCodeURLFieldData where
  state : Option String
  redirectURL : String
  scopes : List String
  authURLParams : Params
  providerOptions : Params

/-- configAuthCodeURLUpdateOperation: requires a configuration and a state,
then builds the authorization code URL from the cached provider's endpoint,
applying the request's URL parameters and then the configured ones (the
provider options do not reach the URL). -/
def configAuthCodeURLUpdateOperation (reg : Registry) (st : Storage)
    (d : AuthCodeURLFieldData) : OpResult :=
  match getCache reg st with
  | .error e => .internalErr e
  | .ok none => .errResp "not configured"
  | .ok (some cache) =>
    match d.state with
    | none => .errResp "missing state"
    | some state =>
      .ok (some [("url",
        .url cache.provider.endpoint.authURL
          (authCodeURLQuery cache.config.clientID d.redirectURL d.scopes
            (d.authURLParams ++ cache.config.authURLParams) state))])

/-- Modelled from the spec: the requests a token endpoint answers for the
basic provider (the oauth2 client is not under src). -/
inductive TokenRequest where
  | authorizationCode (clientID clientSecret code redirectURL : String) (params : Params)
  | refreshToken (clientID clientSecret refreshToken : String)
  deriving Repr, DecidableEq

/-- A token endpoint response in the wire form of the tests:
access_token, refresh_token, token_type and expires_in. -/
structure TokenResponse where
  accessToken : String
  refreshToken : String
  tokenType : String
  expiresIn : Int
  deriving Repr, DecidableEq

/-- A token endpoint as a pure request/response function; none models a
transport or protocol failure. -/
abbrev TokenEndpoint := TokenRequest → Option TokenResponse

/-- The token the oauth2 client assembles from a wire response at the
current time: expiry is now plus expires_in, unset when expires_in is 0. -/
def tokenFromResponse (r : TokenResponse) (now : Instant) : Token :=
  { accessToken := r.accessToken
    tokenType := r.tokenType
    refreshToken := r.refreshToken
    expiry := if r.expiresIn = 0 then 0 else now + r.expiresIn }

/-- The basic provider's exchange config: the client pair and the redirect
URL the builder closed over. -/
structure BasicExchangeConfig where
  clientID : String
  clientSecret : String
  redirectURL : String
  deriving Repr, DecidableEq

/-- Modelled from the spec: Exchange of the basic provider posts the
authorization code with the client pair and redirect URL and assembles the
token from the response. -/
def BasicExchangeConfig.exchange (c : BasicExchangeConfig) (ep : TokenEndpoint)
    (code : String) (params : Params) (now : Instant) : Option Token :=
  (ep (.authorizationCode c.clientID c.clientSecret code c.redirectURL params)).map
    (fun r => tokenFromResponse r now)

/-- Modelled from the spec: Refresh of the basic provider goes through the
oauth2 token source, which returns a still-valid token untouched and
otherwise posts the refresh token, keeping the old refresh token when the
response omits one. -/
def BasicExchangeConfig.refresh (c : BasicExchangeConfig) (ep : TokenEndpoint)
    (t : Token) (now : Instant) : Option Token :=
  if t.valid now then some t
  else
    (ep (.refreshToken c.clientID c.clientSecret t.refreshToken)).map
      (fun r =>
        let nt := tokenFromResponse r now
        if nt.refreshToken = "" then { nt with refreshToken := t.refreshToken } else nt)

/-- A mock exchange function: code in, token or error out. -/
abbrev MockExchangeFunc := String → Except Unit Token

/-- The mock exchange config: the owner's refresh-token-to-code map and the
exchange function selected for the client (absent when the client is
unknown). -/
structure MockExchangeConfig where
  refreshCodes : Params
  fn : Option MockExchangeFunc

/-- mockExchangeConfig.Refresh: returns the input token untouched when the
refresh token is empty, no exchange function is configured, the refresh
token is unknown to the owner, or the token is still valid; otherwise runs
the exchange function on the recorded code. The second component counts
the exchange calls performed. -/
def MockExchangeConfig.refresh (c : MockExchangeConfig) (t : Token) (now : Instant) :
    Except Unit Token × Nat :=
  match c.fn with
  | none => (.ok t, 0)
  | some fn =>
    if t.refreshToken = "" then (.ok t, 0)
    else
      match lookupKey c.refreshCodes t.refreshToken with
      | none => (.ok t, 0)
      | some code =>
        if t.valid now then (.ok t, 0)
        else
          match fn code with
          | .error e => (.error e, 1)
          | .ok tok => (.ok tok, 1)

/-- Replace the client secret inside the stored config, leaving everything
else alone. -/
def Storage.withClientSecret (st : Storage) (s : String) : Storage :=
  { st with config := st.config.map (fun c => { c with clientSecret := s }) }

/-- A tuning entry satisfying every bound, for concrete runs. -/
def exampleTuning : ConfigTuningEntry :=
  { providerTimeoutSeconds := 30, providerTimeoutExpiryLeewayFactor := 2
    refreshCheckIntervalSeconds := 60, refreshExpiryDeltaFactor := 2
    reapCheckIntervalSeconds := 300, reapDryRun := false
    reapNonRefreshableSeconds := 86400, reapRevokedSeconds := 3600
    reapTransientErrorAttempts := 3, reapTransientErrorSeconds := 86400 }

/-- A mock owner with no declared options reporting version 4. -/
def exampleMock : Mock := { vsn := 4, expectedOpts := [] }

/-- A registry holding the example mock and a basic provider at the mock
endpoint. -/
def exampleRegistry : Registry :=
  { factories := [("mock", exampleMock.factory), ("basic", basicFactory MockEndpoint)] }

/-- A storage with no config, no credentials, and reliable persistence. -/
def emptyStorage : Storage :=
  { config := none, creds := fun _ => none
    configWriteFails := false, configDeleteFails := false }

/-- A complete update request naming the example mock provider. -/
def exampleFieldData : FieldData :=
  { clientID := some "foo", provider := some "mock", clientSecret := "bar"
    authURLParams := [("audience", "x")], providerOptions := []
    tuneProviderTimeoutSeconds := 30, tuneProviderTimeoutExpiryLeewayFactor := 2
    tuneRefreshCheckIntervalSeconds := 60, tuneRefreshExpiryDeltaFactor := 2
    tuneReapCheckIntervalSeconds := 300, tuneReapDryRun := false
    tuneReapNonRefreshableSeconds := 86400, tuneReapRevokedSeconds := 3600
    tuneReapTransientErrorAttempts := 3, tuneReapTransientErrorSeconds := 86400 }

/-- The example update request with a tuning bound violated. -/
def exampleBadTuningData : FieldData :=
  { exampleFieldData with tuneRefreshExpiryDeltaFactor := 0 }

/-- The configuration of the URL-composition run: provider basic, client
foo, configured URL parameter audience=x. -/
def c6config : ConfigEntry :=
  { version := ConfigVersionLatest, clientID := "foo", clientSecret := "bar"
    authURLParams := [("audience", "x")], providerName := "basic"
    providerVersion := 1, providerOptions := [], tuning := exampleTuning }

/-- A configured storage for the URL-composition run. -/
def c6storage : Storage := { emptyStorage with config := some c6config }

/-- The auth_code_url request of the URL-composition run: state s, redirect
URL, scopes a b c, extra parameter baz=quux. -/
def c6data : AuthCodeURLFieldData :=
  { state := some "s", redirectURL := "http://example.com/redirect"
    scopes := ["a", "b", "c"], authURLParams := [("baz", "quux")]
    providerOptions := [] }

/-- The exchange config of the exchange/refresh run: client foo/bar with
the test redirect URL. -/
def c7conf : BasicExchangeConfig :=
  { clientID := "foo", clientSecret := "bar"
    redirectURL := "http://example.com/redirect" }

/-- The token endpoint of the exchange/refresh run: answers the code
123456 with abcd/efgh expiring in 5 seconds and a refresh of efgh with
ijkl good for an hour. -/
def c7endpoint : TokenEndpoint
  | .authorizationCode _ _ code _ _ =>
    if code = "123456" then
      some { accessToken := "abcd", refreshToken := "efgh"
             tokenType := "bearer", expiresIn := 5 }
    else none
  | .refreshToken _ _ rt =>
    if rt = "efgh" then
      some { accessToken := "ijkl", refreshToken := "efgh"
             tokenType := "bearer", expiresIn := 3600 }
    else none

/-- A mock owner declaring one expected option foo=bar. -/
def c45mockDeclared : Mock := { vsn := 1, expectedOpts := [("foo", "bar")] }

/-- A second mock owner declaring one expected option, for the option
validation run. -/
def c5mockWitnessOwner : Mock := { vsn := 3, expectedOpts := [("color", "red")] }

/-- A storage holding a config and one credential, for the delete frame
run. -/
def c3storage : Storage :=
  { config := some c6config
    creds := fun n =>
      if n = "alice" then
        some { token := { accessToken := "abcd", tokenType := "bearer"
                          refreshToken := "efgh", expiry := 5 } }
      else none
    configWriteFails := false, configDeleteFails := false }

/-- A mock exchange config knowing the refresh token efgh, for the refresh
identity run. -/
def c10config : MockExchangeConfig :=
  { refreshCodes := [("efgh", "123456")]
    fn := some (fun _ =>
      .ok { accessToken := "zzzz", tokenType := "bearer"
            refreshToken := "efgh", expiry := 0 }) }

/-- A token with no refresh token, for the refresh identity run. -/
def c10token : Token :=
  { accessToken := "abcd", tokenType := "bearer", refreshToken := "", expiry := 0 }

/-- The example update request with the client id omitted. -/
def noClientData : FieldData := { exampleFieldData with clientID := none }

/-- The example update request with the provider omitted. -/
def noProviderData : FieldData := { exampleFieldData with provider := none }

/-- The URL-composition request with the state omitted. -/
def noStateData : AuthCodeURLFieldData := { c6data with state := none }

/-- The query the URL-composition run produces. -/
def c6query : Params :=
  authCodeURLQuery "foo" "http://example.com/redirect" ["a", "b", "c"]
    [("baz", "quux"), ("audience", "x")] "s"

/-! Helper lemmas about the association-list operations. -/

theorem lookupKey_eraseKey_ne {α : Type} (l : List (String × α)) (k k' : String)
    (h : k' ≠ k) : lookupKey (eraseKey l k) k' = lookupKey l k' := by
  induction l with
  | nil => rfl
  | cons p rest ih =>
    obtain ⟨k0, v⟩ := p
    by_cases hk : k0 = k
    · subst hk
      have hne : k0 ≠ k' := fun he => h he.symm
      simp [eraseKey, lookupKey, hne]
    · by_cases h2 : k0 = k'
      · subst h2
        simp [eraseKey, lookupKey, hk]
      · simp [eraseKey, lookupKey, hk, h2, ih]

theorem lookupKey_eq_none_of_not_mem {α : Type} (l : List (String × α)) (k : String)
    (h : k ∉ l.map Prod.fst) : lookupKey l k = none := by
  induction l with
  | nil => rfl
  | cons p rest ih =>
    obtain ⟨k0, v⟩ := p
    simp only [List.map_cons, List.mem_cons, not_or] at h
    have h1 : k0 ≠ k := fun he => h.1 he.symm
    simp [lookupKey, h1, ih h.2]

theorem lookupKey_eraseKey_self {α : Type} (l : List (String × α)) (k : String)
    (h : keysNodup l) : lookupKey (eraseKey l k) k = none := by
  induction l with
  | nil => rfl
  | cons p rest ih =>
    obtain ⟨k0, v⟩ := p
    simp only [keysNodup, List.map_cons, List.nodup_cons] at h
    by_cases hk : k0 = k
    · subst hk
      simp only [eraseKey, if_pos rfl]
      exact lookupKey_eq_none_of_not_mem rest k0 h.1
    · simp [eraseKey, lookupKey, hk, ih h.2]

theorem eraseKey_sublist {α : Type} (l : List (String × α)) (k : String) :
    (eraseKey l k).Sublist l := by
  induction l with
  | nil => exact List.Sublist.refl []
  | cons p rest ih =>
    obtain ⟨k0, v⟩ := p
    by_cases hk : k0 = k
    · simp only [eraseKey, if_pos hk]
      exact List.sublist_cons_self (k0, v) rest
    · simp only [eraseKey, if_neg hk]
      exact ih.cons₂ (k0, v)

theorem keysNodup_eraseKey {α : Type} (l : List (String × α)) (k : String)
    (h : keysNodup l) : keysNodup (eraseKey l k) :=
  List.Nodup.sublist (List.Sublist.map Prod.fst (eraseKey_sublist l k)) h

theorem eq_nil_of_lookupKey_none {α : Type} (l : List (String × α))
    (h : ∀ k, lookupKey l k = none) : l = [] := by
  cases l with
  | nil => rfl
  | cons p rest =>
    obtain ⟨k0, v⟩ := p
    have := h k0
    simp [lookupKey] at this

theorem checkExpectedOpts_done_iff (expected : Params) :
    ∀ opts : Params, keysNodup expected → keysNodup opts →
      (checkExpectedOpts expected opts = (none, []) ↔ optionsMatch expected opts) := by
  induction expected with
  | nil =>
    intro opts _ _
    constructor
    · intro h
      have hops : opts = [] := by simpa [checkExpectedOpts] using h
      subst hops
      intro k; rfl
    · intro h
      have hops : opts = [] :=
        eq_nil_of_lookupKey_none opts (fun k => by simpa [lookupKey] using h k)
      subst hops; rfl
  | cons p rest ih =>
    obtain ⟨k, ev⟩ := p
    intro opts hm ho
    have hm' : k ∉ rest.map Prod.fst ∧ keysNodup rest := by
      simpa [keysNodup, List.nodup_cons] using hm
    cases hlk : lookupKey opts k with
    | none =>
      simp only [checkExpectedOpts, hlk]
      constructor
      · intro h; simp at h
      · intro h
        have hk := h k
        rw [hlk] at hk
        simp [lookupKey] at hk
    | some av =>
      by_cases hav : av = ev
      · simp only [checkExpectedOpts, hlk, if_pos hav]
        have hiff : optionsMatch rest (eraseKey opts k) ↔
            optionsMatch ((k, ev) :: rest) opts := by
          constructor
          · intro h key
            by_cases hkey : key = k
            · subst hkey
              rw [hlk]
              simp [lookupKey, hav]
            · have h1 := h key
              rw [lookupKey_eraseKey_ne opts k key hkey] at h1
              rw [h1]
              have hne : k ≠ key := fun he => hkey he.symm
              simp [lookupKey, hne]
          · intro h key
            by_cases hkey : key = k
            · subst hkey
              rw [lookupKey_eraseKey_self opts key ho]
              rw [lookupKey_eq_none_of_not_mem rest key hm'.1]
            · rw [lookupKey_eraseKey_ne opts k key hkey]
              have h1 := h key
              have hne : k ≠ key := fun he => hkey he.symm
              simpa [lookupKey, hne] using h1
        exact (ih (eraseKey opts k) hm'.2 (keysNodup_eraseKey opts k ho)).trans hiff
      · simp only [checkExpectedOpts, hlk, if_neg hav]
        constructor
        · intro h; simp at h
        · intro h
          have hk := h k
          rw [hlk] at hk
          simp [lookupKey] at hk
          exact absurd hk hav

theorem checkExpectedOpts_error_offending (expected : Params) :
    ∀ (opts : Params) (e : OptionError) (rem : Params),
      keysNodup expected → keysNodup opts →
      checkExpectedOpts expected opts = (some e, rem) →
      (lookupKey expected e.option).isSome = true ∧
        lookupKey opts e.option ≠ lookupKey expected e.option := by
  induction expected with
  | nil =>
    intro opts e rem _ _ h
    simp [checkExpectedOpts] at h
  | cons p rest ih =>
    obtain ⟨k, ev⟩ := p
    intro opts e rem hm ho h
    have hm' : k ∉ rest.map Prod.fst ∧ keysNodup rest := by
      simpa [keysNodup, List.nodup_cons] using hm
    cases hlk : lookupKey opts k with
    | none =>
      simp only [checkExpectedOpts, hlk] at h
      injection h with h1 h2
      injection h1 with h3
      subst h3
      constructor
      · simp [lookupKey]
      · rw [hlk]
        simp [lookupKey]
    | some av =>
      by_cases hav : av = ev
      · simp only [checkExpectedOpts, hlk, if_pos hav] at h
        obtain ⟨h1, h2⟩ :=
          ih (eraseKey opts k) e rem hm'.2 (keysNodup_eraseKey opts k ho) h
        have hne : e.option ≠ k := by
          intro he
          rw [he, lookupKey_eq_none_of_not_mem rest k hm'.1] at h1
          simp at h1
        have hkne : k ≠ e.option := fun he => hne he.symm
        constructor
        · simpa [lookupKey, hkne] using h1
        · rw [← lookupKey_eraseKey_ne opts k e.option hne]
          simpa [lookupKey, hkne] using h2
      · simp only [checkExpectedOpts, hlk, if_neg hav] at h
        injection h with h1 h2
        injection h1 with h3
        subst h3
        constructor
        · simp [lookupKey]
        · rw [hlk]
          simp [lookupKey]
          exact hav

theorem checkExpectedOpts_leftover (expected : Params) :
    ∀ opts rem : Params, keysNodup expected → keysNodup opts →
      checkExpectedOpts expected opts = (none, rem) →
      ∀ k, (lookupKey rem k).isSome = true →
        lookupKey expected k = none ∧ (lookupKey opts k).isSome = true := by
  induction expected with
  | nil =>
    intro opts rem _ _ h k hk
    simp only [checkExpectedOpts, Prod.mk.injEq, true_and] at h
    subst h
    exact ⟨rfl, hk⟩
  | cons p rest ih =>
    obtain ⟨k0, ev⟩ := p
    intro opts rem hm ho h key hkey
    have hm' : k0 ∉ rest.map Prod.fst ∧ keysNodup rest := by
      simpa [keysNodup, List.nodup_cons] using hm
    cases hlk : lookupKey opts k0 with
    | none => simp [checkExpectedOpts, hlk] at h
    | some av =>
      by_cases hav : av = ev
      · simp only [checkExpectedOpts, hlk, if_pos hav] at h
        obtain ⟨h1, h2⟩ :=
          ih (eraseKey opts k0) rem hm'.2 (keysNodup_eraseKey opts k0 ho) h key hkey
        have hne : key ≠ k0 := by
          intro he
          rw [he, lookupKey_eraseKey_self opts k0 ho] at h2
          simp at h2
        have hkne : k0 ≠ key := fun he => hne he.symm
        constructor
        · simpa [lookupKey, hkne] using h1
        · rw [← lookupKey_eraseKey_ne opts k0 key hne]
          exact h2
      · simp [checkExpectedOpts, hlk, if_neg hav] at h

/-- C4 counterexample: at the sentinel latest version the mock factory does
not return a provider instance when a declared option is absent from the
options map; it returns an OptionError instead. -/
theorem mock_factory_latest_counterexample :
    (c45mockDeclared.factory ProviderVersionLatest []).fst =
      .error (.optionError { option := "foo", message := "not found" }) ∧
    ((c45mockDeclared.factory ProviderVersionLatest []).fst.isOk = false) :=
  ⟨rfl, rfl⟩

/-- C4 (amended): for every requested version v, the mock factory returns a
provider instance when v is the sentinel latest version or equals the
factory's own version, provided the options map passes validation, and
returns the no-provider-with-version error for every other v. -/
theorem mock_factory_version_dispatch (m : Mock) (v : Int) (opts : Params) :
    ((v = ProviderVersionLatest ∨ v = m.vsn) →
      optionsValid m.expectedOpts opts = true →
      (m.factory v opts).fst = .ok { version := m.vsn, endpoint := MockEndpoint }) ∧
    (¬ (v = ProviderVersionLatest ∨ v = m.vsn) →
      (m.factory v opts).fst = .error .noProviderWithVersion) := by
  constructor
  · intro hv hopts
    unfold Mock.factory
    rw [if_pos hv]
    unfold optionsValid at hopts
    cases hcek : checkExpectedOpts m.expectedOpts opts with
    | mk oe rem =>
      rw [hcek] at hopts
      cases oe with
      | some e => simp at hopts
      | none =>
        cases rem with
        | nil => simp [hcek]
        | cons hd tl => simp at hopts
  · intro hv
    unfold Mock.factory
    rw [if_neg hv]

/-- C4 witness: the example mock accepts the latest sentinel with an empty
options map and rejects the version 7 it does not implement. -/
theorem mock_factory_version_dispatch_witness :
    (exampleMock.factory ProviderVersionLatest []).fst =
      .ok { version := 4, endpoint := MockEndpoint } ∧
    (exampleMock.factory 7 []).fst = .error .noProviderWithVersion :=
  ⟨(mock_factory_version_dispatch exampleMock ProviderVersionLatest []).1
      (Or.inl rfl) (by decide),
   (mock_factory_version_dispatch exampleMock 7 []).2 (by decide)⟩

/-- C5 counterexample: the mock factory mutates its input: validating the
single declared option foo=bar against the matching map deletes the key, so
the caller's options map comes back empty rather than unchanged. -/
theorem mock_factory_mutation_counterexample :
    (c45mockDeclared.factory ProviderVersionLatest [("foo", "bar")]).snd = [] ∧
    (((c45mockDeclared.factory ProviderVersionLatest [("foo", "bar")]).snd ==
        [("foo", "bar")]) = false) := by
  decide

/-- C5 (amended): the mock factory validates its options map — it returns a
provider exactly when the options agree with the declared set as maps,
every non-matching map is answered with an OptionError, and any
OptionError it returns names a genuinely offending key (a declared option
that is absent or carries a different value, or a key that is not
declared) — but it consumes the map while validating: on a successful
build the caller's map is left empty rather than untouched. -/
theorem mock_factory_option_validation (m : Mock) (opts : Params)
    (hm : keysNodup m.expectedOpts) (ho : keysNodup opts) :
    ((∃ p, (m.factory ProviderVersionLatest opts).fst = .ok p) ↔
        optionsMatch m.expectedOpts opts) ∧
    (∀ e, (m.factory ProviderVersionLatest opts).fst = .error (.optionError e) →
        offendingKey m.expectedOpts opts e.option) ∧
    (¬ optionsMatch m.expectedOpts opts →
      ∃ e, (m.factory ProviderVersionLatest opts).fst = .error (.optionError e)) ∧
    (optionsMatch m.expectedOpts opts →
      (m.factory ProviderVersionLatest opts).snd = []) := by
  have hvsn : ProviderVersionLatest = ProviderVersionLatest ∨
      ProviderVersionLatest = m.vsn := Or.inl rfl
  refine ⟨⟨?_, ?_⟩, ?_, ?_, ?_⟩
  · rintro ⟨p, hp⟩
    unfold Mock.factory at hp
    rw [if_pos hvsn] at hp
    cases hcek : checkExpectedOpts m.expectedOpts opts with
    | mk oe rem =>
      rw [hcek] at hp
      cases oe with
      | some e => simp at hp
      | none =>
        cases rem with
        | nil => exact (checkExpectedOpts_done_iff m.expectedOpts opts hm ho).mp hcek
        | cons hd tl =>
          obtain ⟨k0, v0⟩ := hd
          simp at hp
  · intro hmatch
    have hcek := (checkExpectedOpts_done_iff m.expectedOpts opts hm ho).mpr hmatch
    refine ⟨{ version := m.vsn, endpoint := MockEndpoint }, ?_⟩
    unfold Mock.factory
    rw [if_pos hvsn, hcek]
  · intro e he
    unfold Mock.factory at he
    rw [if_pos hvsn] at he
    cases hcek : checkExpectedOpts m.expectedOpts opts with
    | mk oe rem =>
      rw [hcek] at he
      cases oe with
      | some e' =>
        simp only [Except.error.injEq, FactoryError.optionError.injEq] at he
        obtain rfl := he
        exact Or.inl (checkExpectedOpts_error_offending m.expectedOpts opts _ rem hm ho hcek)
      | none =>
        cases rem with
        | nil => simp at he
        | cons hd tl =>
          obtain ⟨k0, v0⟩ := hd
          simp only [Except.error.injEq, FactoryError.optionError.injEq] at he
          obtain rfl := he
          have hk0 : (lookupKey ((k0, v0) :: tl) k0).isSome = true := by
            simp [lookupKey]
          exact Or.inr
            (checkExpectedOpts_leftover m.expectedOpts opts ((k0, v0) :: tl) hm ho hcek
              k0 hk0)
  · intro hnm
    unfold Mock.factory
    rw [if_pos hvsn]
    cases hcek : checkExpectedOpts m.expectedOpts opts with
    | mk oe rem =>
      cases oe with
      | some e => exact ⟨e, by simp [hcek]⟩
      | none =>
        cases rem with
        | nil =>
          exact absurd ((checkExpectedOpts_done_iff m.expectedOpts opts hm ho).mp hcek) hnm
        | cons hd tl =>
          obtain ⟨k0, v0⟩ := hd
          exact ⟨{ option := k0, message := "unexpected" }, by simp [hcek]⟩
  · intro hmatch
    have hcek := (checkExpectedOpts_done_iff m.expectedOpts opts hm ho).mpr hmatch
    unfold Mock.factory
    rw [if_pos hvsn, hcek]

/-- C5 witness: a factory declaring color=red accepts exactly that map and
hands back an emptied map. -/
theorem mock_factory_option_validation_witness :
    optionsMatch c5mockWitnessOwner.expectedOpts [("color", "red")] ∧
    (c5mockWitnessOwner.factory ProviderVersionLatest [("color", "red")]).snd = [] := by
  have hmatch : optionsMatch c5mockWitnessOwner.expectedOpts [("color", "red")] :=
    fun k => rfl
  exact ⟨hmatch,
    (mock_factory_option_validation c5mockWitnessOwner [("color", "red")]
        (by simp [keysNodup, c5mockWitnessOwner])
        (by simp [keysNodup])).2.2.2 hmatch⟩

theorem validateTuning_eq_none_iff (t : ConfigTuningEntry) :
    validateTuning t = none ↔ tuningBoundsOK t := by
  unfold validateTuning tuningBoundsOK
  split_ifs with h1 h2 h3 h4 h5 <;> simp_all

/-- Exhaustive behavior of configUpdateOperation: a visible error response
leaving the storage untouched, a write failure leaving the storage
untouched with the tuning bounds already validated, or a successful write
of the assembled entry followed by exactly one reset. -/
theorem configUpdateOperation_cases (reg : Registry) (st : Storage) (d : FieldData) :
    (∃ msg, configUpdateOperation reg st d = (.errResp msg, st, [])) ∨
    (configUpdateOperation reg st d =
        (.internalErr "configuration write failed", st, []) ∧
      tuningBoundsOK (tuningOfData d)) ∨
    (∃ cid pn p, d.clientID = some cid ∧ d.provider = some pn ∧
      Registry.new reg pn ProviderVersionLatest d.providerOptions = .ok p ∧
      tuningBoundsOK (tuningOfData d) ∧ st.configWriteFails = false ∧
      configUpdateOperation reg st d =
        (.ok none, { st with config := some (configEntryOfData d cid pn p) },
          [.storeWrite, .reset])) := by
  cases hcid : d.clientID with
  | none =>
    refine Or.inl ⟨"missing client ID", ?_⟩
    simp [configUpdateOperation, hcid]
  | some cid =>
    cases hprov : d.provider with
    | none =>
      refine Or.inl ⟨"missing provider", ?_⟩
      simp [configUpdateOperation, hcid, hprov]
    | some pn =>
      cases hreg : Registry.new reg pn ProviderVersionLatest d.providerOptions with
      | error e =>
        cases e with
        | noSuchProvider =>
          refine Or.inl ⟨"provider " ++ pn ++ " does not exist", ?_⟩
          simp [configUpdateOperation, hcid, hprov, hreg]
        | factoryErr fe =>
          refine Or.inl ⟨factoryErrorMessage fe, ?_⟩
          simp [configUpdateOperation, hcid, hprov, hreg]
      | ok p =>
        cases hvt : validateTuning (tuningOfData d) with
        | some msg =>
          refine Or.inl ⟨msg, ?_⟩
          simp [configUpdateOperation, hcid, hprov, hreg, hvt]
        | none =>
          have hbounds := (validateTuning_eq_none_iff (tuningOfData d)).mp hvt
          by_cases hw : st.configWriteFails
          · refine Or.inr (Or.inl ⟨?_, hbounds⟩)
            simp [configUpdateOperation, hcid, hprov, hreg, hvt, hw]
          · refine Or.inr (Or.inr ⟨cid, pn, p, rfl, rfl, hreg, hbounds,
              by simpa using hw, ?_⟩)
            simp [configUpdateOperation, hcid, hprov, hreg, hvt, hw]

/-- C1: every config update returns a visible error response and leaves the
stored config untouched whenever one of the five tuning bounds is violated,
and a store write only happens when all five bounds hold. -/
theorem configUpdate_tuning_validation (reg : Registry) (st : Storage) (d : FieldData) :
    (¬ tuningBoundsOK (tuningOfData d) →
      (∃ msg, (configUpdateOperation reg st d).fst = .errResp msg) ∧
        (configUpdateOperation reg st d).snd.fst = st) ∧
    (Event.storeWrite ∈ (configUpdateOperation reg st d).snd.snd →
      tuningBoundsOK (tuningOfData d)) := by
  rcases configUpdateOperation_cases reg st d with
    ⟨msg, h⟩ | ⟨h, hb⟩ | ⟨cid, pn, p, _, _, _, hb, _, h⟩
  · constructor
    · intro _
      exact ⟨⟨msg, by simp [h]⟩, by simp [h]⟩
    · intro hw
      rw [h] at hw
      simp at hw
  · exact ⟨fun hnb => absurd hb hnb, fun _ => hb⟩
  · exact ⟨fun hnb => absurd hb hnb, fun _ => hb⟩

/-- C1 witness: a request with refresh_expiry_delta_factor 0 violates the
bounds and is rejected with the storage untouched, while the example
request satisfies all five bounds. -/
theorem configUpdate_tuning_validation_witness :
    ((∃ msg, (configUpdateOperation exampleRegistry emptyStorage
        exampleBadTuningData).fst = .errResp msg) ∧
      (configUpdateOperation exampleRegistry emptyStorage
        exampleBadTuningData).snd.fst = emptyStorage) ∧
    tuningBoundsOK (tuningOfData exampleFieldData) :=
  ⟨(configUpdate_tuning_validation exampleRegistry emptyStorage
      exampleBadTuningData).1 (by decide),
   (configUpdate_tuning_validation exampleRegistry emptyStorage
      exampleFieldData).2 (by decide)⟩

/-- C2: a successful config update stores an entry whose version is the
latest config version and whose provider version is the one reported by
the provider freshly built from the requested name and options, with
exactly one reset after the store write; failed updates produce no write
and no reset. -/
theorem configUpdate_success_postcondition (reg : Registry) (st : Storage)
    (d : FieldData) :
    ((configUpdateOperation reg st d).fst = .ok none →
      ∃ pn p c, d.provider = some pn ∧
        Registry.new reg pn ProviderVersionLatest d.providerOptions = .ok p ∧
        (configUpdateOperation reg st d).snd.fst.config = some c ∧
        c.version = ConfigVersionLatest ∧ c.providerVersion = p.version ∧
        (configUpdateOperation reg st d).snd.snd = [.storeWrite, .reset]) ∧
    ((configUpdateOperation reg st d).fst ≠ .ok none →
      (configUpdateOperation reg st d).snd.snd = []) := by
  rcases configUpdateOperation_cases reg st d with
    ⟨msg, h⟩ | ⟨h, _⟩ | ⟨cid, pn, p, hcid, hprov, hreg, _, _, h⟩
  · constructor
    · intro hok
      rw [h] at hok
      simp at hok
    · intro _
      simp [h]
  · constructor
    · intro hok
      rw [h] at hok
      simp at hok
    · intro _
      simp [h]
  · constructor
    · intro _
      exact ⟨pn, p, configEntryOfData d cid pn p, hprov, hreg,
        by simp [h], rfl, rfl, by simp [h]⟩
    · intro hne
      exact absurd (by simp [h]) hne

/-- C2 witness: the example request succeeds, stores an entry at the latest
config version, and triggers exactly one reset after the write; the
bound-violating request produces no effect at all. -/
theorem configUpdate_success_postcondition_witness :
    (∃ c, (configUpdateOperation exampleRegistry emptyStorage
        exampleFieldData).snd.fst.config = some c ∧
      c.version = ConfigVersionLatest ∧
      (configUpdateOperation exampleRegistry emptyStorage
        exampleFieldData).snd.snd = [.storeWrite, .reset]) ∧
    (configUpdateOperation exampleRegistry emptyStorage
      exampleBadTuningData).snd.snd = [] := by
  constructor
  · obtain ⟨pn, p, c, _, _, hc, hv, _, htr⟩ :=
      (configUpdate_success_postcondition exampleRegistry emptyStorage
        exampleFieldData).1 (by decide)
    exact ⟨c, hc, hv, htr⟩
  · exact (configUpdate_success_postcondition exampleRegistry emptyStorage
      exampleBadTuningData).2 (by decide)

/-- C3: the delete operation never touches any credential entry, and on a
successful delete it removes the singleton config entry and then resets
the backend. -/
theorem configDelete_frame (st : Storage) :
    (∀ name, (configDeleteOperation st).snd.fst.creds name = st.creds name) ∧
    (st.configDeleteFails = false →
      (configDeleteOperation st).snd.fst.config = none ∧
      (configDeleteOperation st).snd.snd = [.storeDelete, .reset]) := by
  unfold configDeleteOperation
  by_cases h : st.configDeleteFails <;> simp [h]

/-- C3 witness: deleting from a storage holding a config and the credential
alice leaves alice intact, clears the config, and resets once. -/
theorem configDelete_frame_witness :
    (configDeleteOperation c3storage).snd.fst.creds "alice" = c3storage.creds "alice" ∧
    (configDeleteOperation c3storage).snd.fst.config = none ∧
    (configDeleteOperation c3storage).snd.snd = [.storeDelete, .reset] := by
  obtain ⟨hf, hd⟩ := configDelete_frame c3storage
  obtain ⟨hc, ht⟩ := hd rfl
  exact ⟨hf "alice", hc, ht⟩

/-- C8: missing required input yields a visible error response with no
internal error: a config update without client_id or without provider, an
auth-code-URL update without state, and an auth-code-URL update against an
absent config each answer with the respective error response. -/
theorem missing_required_input_responses (reg : Registry) (st : Storage)
    (d : FieldData) (da : AuthCodeURLFieldData) :
    (d.clientID = none →
      (configUpdateOperation reg st d).fst = .errResp "missing client ID") ∧
    (∀ cid, d.clientID = some cid → d.provider = none →
      (configUpdateOperation reg st d).fst = .errResp "missing provider") ∧
    (st.config = none →
      configAuthCodeURLUpdateOperation reg st da = .errResp "not configured") ∧
    (∀ cb, getCache reg st = .ok (some cb) → da.state = none →
      configAuthCodeURLUpdateOperation reg st da = .errResp "missing state") := by
  refine ⟨?_, ?_, ?_, ?_⟩
  · intro h
    simp [configUpdateOperation, h]
  · intro cid h hp
    simp [configUpdateOperation, h, hp]
  · intro h
    simp [configAuthCodeURLUpdateOperation, getCache, h]
  · intro cb hcb hs
    simp [configAuthCodeURLUpdateOperation, hcb, hs]

/-- C8 witness: the four missing-input situations at concrete requests. -/
theorem missing_required_input_responses_witness :
    (configUpdateOperation exampleRegistry emptyStorage noClientData).fst =
      .errResp "missing client ID" ∧
    (configUpdateOperation exampleRegistry emptyStorage noProviderData).fst =
      .errResp "missing provider" ∧
    configAuthCodeURLUpdateOperation exampleRegistry emptyStorage c6data =
      .errResp "not configured" ∧
    configAuthCodeURLUpdateOperation exampleRegistry c6storage noStateData =
      .errResp "missing state" :=
  ⟨(missing_required_input_responses exampleRegistry emptyStorage noClientData
      c6data).1 rfl,
   (missing_required_input_responses exampleRegistry emptyStorage noProviderData
      c6data).2.1 "foo" rfl rfl,
   (missing_required_input_responses exampleRegistry emptyStorage noClientData
      c6data).2.2.1 rfl,
   (missing_required_input_responses exampleRegistry c6storage noClientData
      noStateData).2.2.2
     { config := c6config, provider := { version := 1, endpoint := MockEndpoint } }
     rfl rfl⟩

/-- C9: the config read response is independent of the stored client
secret — replacing the secret of the stored entry leaves the whole read
response unchanged — and its data holds exactly the client id, provider
fields and tuning fields, with no client_secret key. -/
theorem configRead_secret_independence (reg : Registry) (st : Storage) (s : String) :
    configReadOperation reg (st.withClientSecret s) = configReadOperation reg st ∧
    (∀ c : ConfigEntry, (configReadResponseData c).map Prod.fst = configReadKeys) ∧
    (configReadKeys.contains "client_secret") = false ∧
    (configReadKeys.contains "client_id") = true ∧
    (configReadKeys.contains "provider") = true ∧
    (configReadKeys.contains "provider_version") = true ∧
    (configReadKeys.contains "tune_refresh_check_interval_seconds") = true := by
  refine ⟨?_, fun c => rfl, by decide, by decide, by decide, by decide, by decide⟩
  unfold configReadOperation getCache Storage.withClientSecret
  cases hc : st.config with
  | none => rfl
  | some c =>
    cases hreg : Registry.new reg c.providerName c.providerVersion c.providerOptions with
    | error e => simp [hreg]
    | ok p => simp [hreg, configReadResponseData]

/-- C6: composing the auth-code URL for client foo with redirect URL,
scopes a b c, state s, extra parameter baz=quux and configured parameter
audience=x yields a URL at the configured authorization endpoint whose
query holds exactly the expected seven parameters. -/
theorem authCodeURL_query_composition :
    configAuthCodeURLUpdateOperation exampleRegistry c6storage c6data =
      .ok (some [("url", .url "http://localhost/authorize" c6query)]) ∧
    Multiset.ofList c6query =
      Multiset.ofList
        [("response_type", "code"), ("client_id", "foo"),
         ("redirect_uri", "http://example.com/redirect"), ("scope", "a b c"),
         ("baz", "quux"), ("audience", "x"), ("state", "s")] := by
  exact ⟨rfl, by decide⟩

/-- C7: exchanging code 123456 yields the token abcd with refresh token
efgh and canonical Bearer type; once the token is no longer valid, a
refresh yields the valid token ijkl. -/
theorem basic_exchange_refresh_run :
    ∃ t : Token,
      c7conf.exchange c7endpoint "123456" [("baz", "quux")] 0 = some t ∧
      t.accessToken = "abcd" ∧ t.refreshToken = "efgh" ∧ Token.type t = "Bearer" ∧
      t.valid 0 = false ∧
      ∃ t2 : Token, c7conf.refresh c7endpoint t 0 = some t2 ∧
        t2.accessToken = "ijkl" ∧ t2.valid 0 = true := by
  refine ⟨{ accessToken := "abcd", tokenType := "bearer"
            refreshToken := "efgh", expiry := 5 },
    rfl, rfl, rfl, by decide, by decide,
    { accessToken := "ijkl", tokenType := "bearer"
      refreshToken := "efgh", expiry := 3600 },
    by decide, rfl, by decide⟩

/-- C10: the mock refresh is an identity on tokens that do not need
refreshing — empty refresh token, refresh token unknown to the provider,
or still valid — returning the input unchanged with zero exchange calls. -/
theorem mock_refresh_identity (c : MockExchangeConfig) (t : Token) (now : Instant)
    (h : t.refreshToken = "" ∨ lookupKey c.refreshCodes t.refreshToken = none ∨
      t.valid now = true) :
    c.refresh t now = (.ok t, 0) := by
  cases hfn : c.fn with
  | none => simp [MockExchangeConfig.refresh, hfn]
  | some fn =>
    rcases h with h | h | h
    · simp [MockExchangeConfig.refresh, hfn, h]
    · simp [MockExchangeConfig.refresh, hfn, h]
    · cases hlk : lookupKey c.refreshCodes t.refreshToken with
      | none => simp [MockExchangeConfig.refresh, hfn, hlk]
      | some code => simp [MockExchangeConfig.refresh, hfn, hlk, h]

/-- C10 witness: a token without a refresh token passes through the mock
refresh untouched. -/
theorem mock_refresh_identity_witness :
    c10config.refresh c10token 0 = (.ok c10token, 0) :=
  mock_refresh_identity c10config c10token 0 (Or.inl rfl)

end OAuthApp



